import Mathlib

/-!
Verification development for the summerset state-machine-replication toolkit.

The definitions below are a shallow embedding of the Rust sources:
utils/bitmap.rs, protocols/craft/leadership.rs, protocols/raft/execution.rs,
protocols/multipaxos/request.rs and protocols/multipaxos/leaderlease.rs.
Machine integers (u8/u64/usize) are modelled as Nat; the handlers' overflow-free
arithmetic never wraps.  Fallible Rust functions returning Result are modelled
with Except; a Rust panic is modelled as Option.none.  Asynchronous effects
(peer messages, durable-log writes, control messages) are returned as explicit
output lists.
-/

namespace Summerset

/-- Error type of the repository (utils/error.rs, message-carrying variant). -/
inductive SummersetError where
  | msg (s : String)
deriving DecidableEq, Repr

/-! Bitmap: compact u8 -> bool mapping (src/utils/bitmap.rs).  The underlying
FixedBitSet of capacity n is modelled as a list of n booleans. -/

structure Bitmap where
  bits : List Bool
deriving DecidableEq, Repr

namespace Bitmap

/-- Embedding of `Bitmap::new(size, ones)` (bitmap.rs lines 30-41).  The Rust code panics on
`size == 0`; the panic is modelled as `none`.  `FixedBitSet::with_capacity`
yields all-false bits; `set_range(.., true)` turns them all true. -/
def new (size : Nat) (ones : Bool) : Option Bitmap :=
  if size = 0 then
    none
  else
    some ⟨List.replicate size ones⟩

/-- Embedding of `Bitmap::size` (bitmap.rs lines 70-72). -/
def size (b : Bitmap) : Nat := b.bits.length

/-- Embedding of `Bitmap::set` (bitmap.rs lines 45-54).  Rust mutates `&mut self` and
returns `Result<()>`; modelled as returning the (possibly unchanged) bitmap
together with the `Result`. -/
def set (b : Bitmap) (idx : Nat) (flag : Bool) :
    Bitmap × Except SummersetError Unit :=
  if b.size ≤ idx then
    (b, Except.error (SummersetError.msg ("index " ++ toString idx ++ " out of bound")))
  else
    (⟨b.bits.set idx flag⟩, Except.ok ())

/-- Embedding of `Bitmap::get` (bitmap.rs lines 58-66). -/
def get (b : Bitmap) (idx : Nat) : Except SummersetError Bool :=
  if b.size ≤ idx then
    Except.error (SummersetError.msg ("index " ++ toString idx ++ " out of bound"))
  else
    Except.ok (b.bits.getD idx false)

/-- Embedding of `Bitmap::count` (bitmap.rs lines 76-78). -/
def count (b : Bitmap) : Nat := (b.bits.filter (fun x => x)).length

end Bitmap

/-! Claim theorems about Bitmap appear after all definitions, at the end of
this file. -/

/-! CRaft leader-election logic (src/protocols/craft/leadership.rs).
The replica struct's fields that these handlers read or write are embedded;
per-entry erasure-coded payloads (reqs_cw), the storage / transport / control
hubs and the timers are external collaborators whose interactions are modelled
as explicit output lists (durable metadata writes, peer messages). -/

/-- Replica roles (Raft family). -/
inductive Role where
  | Follower
  | Candidate
  | Leader
deriving DecidableEq, Repr

/-- A CRaft log entry; the erasure-coded request payload (reqs_cw) is an
external collaborator (Reed-Solomon codec) and is not modelled. -/
structure CRaftLogEntry where
  term : Nat
  external : Bool
  log_offset : Nat
deriving DecidableEq, Repr

/-- Modelled from the spec: the Heartbeater component (spec section 4.4) is not
under src/.  It keeps per-peer reply counters, the max counters seen at
broadcast time with their repetition counts, and the derived peer-alive bitset
(the replica itself always counts as alive in `peer_alive`). -/
structure Heartbeater where
  population : Nat
  id : Nat
  sending : Bool
  reply_cnts : Nat → Nat
  max_cnts : Nat → Nat
  repetitions : Nat → Nat
  alive : Nat → Bool
  hear_rounds : Nat

namespace Heartbeater

/-- Modelled from the spec: `set_sending`. -/
def set_sending (hb : Heartbeater) (flag : Bool) : Heartbeater :=
  { hb with sending := flag }

/-- Modelled from the spec: `update_heard_cnt(peer)` advances the peer's reply
counter and marks it alive. -/
def update_heard_cnt (hb : Heartbeater) (peer : Nat) : Heartbeater :=
  { hb with
    reply_cnts := fun p => if p = peer then hb.reply_cnts p + 1 else hb.reply_cnts p
    alive := fun p => if p = peer then true else hb.alive p }

/-- Modelled from the spec: `update_bcast_cnts()` records, per peer, whether
its reply counter advanced since the last broadcast; a peer whose counter has
stalled for more than `hear_rounds` broadcasts is marked dead. -/
def update_bcast_cnts (hb : Heartbeater) : Heartbeater :=
  { hb with
    max_cnts := fun p =>
      if p ≠ hb.id ∧ hb.max_cnts p < hb.reply_cnts p then hb.reply_cnts p
      else hb.max_cnts p
    repetitions := fun p =>
      if p = hb.id then hb.repetitions p
      else if hb.max_cnts p < hb.reply_cnts p then 0
      else hb.repetitions p + 1
    alive := fun p =>
      if p = hb.id then hb.alive p
      else if hb.max_cnts p < hb.reply_cnts p then true
      else if hb.hear_rounds < hb.repetitions p + 1 then false
      else hb.alive p }

/-- Modelled from the spec: `clear_reply_cnts(None)` resets all reply-counter
state. -/
def clear_reply_cnts (hb : Heartbeater) : Heartbeater :=
  { hb with
    reply_cnts := fun _ => 0
    max_cnts := fun _ => 0
    repetitions := fun _ => 0 }

/-- Modelled from the spec: `peer_alive().count()`, the number of replicas
currently considered alive (self included). -/
def peer_alive_count (hb : Heartbeater) : Nat :=
  ((List.range hb.population).filter (fun p => p == hb.id || hb.alive p)).length

end Heartbeater

/-- The CRaft replica configuration fields read by the leadership module. -/
structure CRaftConfig where
  logger_sync : Bool
  disable_hb_timer : Bool
  disallow_step_up : Bool
  fault_tolerance : Nat
deriving DecidableEq, Repr

/-- The CRaftReplica fields read or written by the leadership module. -/
structure CRaftState where
  id : Nat
  population : Nat
  curr_term : Nat
  voted_for : Option Nat
  votes_granted : List Nat
  role : Role
  leader : Option Nat
  log : List CRaftLogEntry
  start_slot : Nat
  last_commit : Nat
  last_snap : Nat
  next_slot : Nat → Nat
  try_next_slot : Nat → Nat
  match_slot : Nat → Nat
  full_copy_mode : Bool
  heartbeater : Heartbeater
  config : CRaftConfig

/-- A durable write of the (curr_term, voted_for) metadata record issued
through `storage_hub.do_sync_action` with `LogAction::Write`. -/
structure MetaWrite where
  term : Nat
  voted_for : Option Nat
  offset : Nat
  sync : Bool
deriving DecidableEq, Repr

/-- Peer messages sent by the CRaft leadership module; AppendEntries entries
are the (payload-stripped) log entries, empty for heartbeats. -/
inductive CPeerMsg where
  | AppendEntries (term prev_slot prev_term : Nat) (entries : List CRaftLogEntry)
      (leader_commit last_snap : Nat)
  | RequestVote (term last_slot last_term : Nat)
deriving DecidableEq, Repr

/-- Default log entry used for out-of-bounds indexing in the model; the source
debug-asserts that these indexes are in bounds (the log always holds a dummy
entry at index 0). -/
def dummyEntry : CRaftLogEntry := ⟨0, false, 0⟩

namespace CRaftState

/-- Embedding of `heard_heartbeat` (leadership.rs lines 295-319).  For a message from
another replica it advances that peer's reply counter; the commented-out
switch back to 1-shard mode is absent; `kickoff_hear_timer` resets a real-time
timer and changes no modelled state. -/
def heard_heartbeat (s : CRaftState) (peer : Nat) (_term : Nat) : CRaftState :=
  if peer ≠ s.id then
    { s with heartbeater := s.heartbeater.update_heard_cnt peer }
  else
    s

/-- Embedding of `check_term` (leadership.rs lines 17-75).  The disjunct
`term == curr_term && role == Candidate` present in the spec is commented out
in the source, so only `term > curr_term` triggers the step-down.  The model
assumes no in-flight async log results to drain and a successful metadata
write (the failure path raises an error and is the subject of no claim); the
`CtrlMsg::LeaderStatus` control message sent on conversion is not recorded.
Returns (new state, returned Bool, synchronous metadata writes issued). -/
def check_term (s : CRaftState) (peer : Nat) (term : Nat) :
    CRaftState × Bool × List MetaWrite :=
  if s.curr_term < term then
    let s1 : CRaftState :=
      { s with curr_term := term, voted_for := none, votes_granted := [],
               leader := some peer }
    let s2 := s1.heard_heartbeat peer term
    let writes : List MetaWrite := [⟨term, none, 0, s.config.logger_sync⟩]
    if s2.role ≠ Role.Follower then
      ({ s2 with role := Role.Follower,
                 heartbeater := s2.heartbeater.set_sending false },
       true, writes)
    else
      (s2, false, writes)
  else
    (s, false, [])

/-- Embedding of `switch_assignment_mode` (leadership.rs lines 80-139).  Re-persisting and
re-broadcasting historical shards on fallback is commented out in the source,
so only the flag changes. -/
def switch_assignment_mode (s : CRaftState) (to_full_copy : Bool) : CRaftState :=
  if s.full_copy_mode = to_full_copy then
    s
  else
    { s with full_copy_mode := to_full_copy }

/-- The guard `self.leader.as_ref().is_some_and(|&l| l != timeout_source)`
of `become_a_candidate`. -/
def leader_mismatch (s : CRaftState) (timeout_source : Nat) : Bool :=
  match s.leader with
  | some l => l != timeout_source
  | none => false

/-- Embedding of `become_a_candidate` (leadership.rs lines 143-209).  As in `check_term`,
the model assumes no in-flight async log results and a successful metadata
write.  Returns (new state, broadcast peer messages, metadata writes). -/
def become_a_candidate (s : CRaftState) (timeout_source : Nat) :
    CRaftState × List CPeerMsg × List MetaWrite :=
  if s.role ≠ Role.Follower ∨ s.leader_mismatch timeout_source ∨
      s.config.disallow_step_up then
    (s, [], [])
  else
    let s1 : CRaftState :=
      { s with role := Role.Candidate, curr_term := s.curr_term + 1,
               voted_for := some s.id, votes_granted := [s.id] }
    let s2 := s1.heard_heartbeat s1.id s1.curr_term
    let last_slot := s2.start_slot + s2.log.length - 1
    let last_term := (s2.log.getD (last_slot - s2.start_slot) dummyEntry).term
    (s2, [CPeerMsg.RequestVote s2.curr_term last_slot last_term],
     [⟨s2.curr_term, some s2.id, 0, s2.config.logger_sync⟩])

/-- Embedding of `bcast_heartbeats` (leadership.rs lines 249-292): send an empty
AppendEntries to every peer, update broadcast counters and liveness, hear the
own heartbeat, then fall back to full-copy replication when the number of
suspected-dead replicas reaches the fault tolerance.  Returns (new state,
(peer, message) pairs sent). -/
def bcast_heartbeats (s : CRaftState) : CRaftState × List (Nat × CPeerMsg) :=
  let msgs := ((List.range s.population).filter (fun p => p != s.id)).map
    (fun peer =>
      let prev_slot := min (s.try_next_slot peer - 1)
        (s.start_slot + s.log.length - 1)
      let prev_term := (s.log.getD (prev_slot - s.start_slot) dummyEntry).term
      (peer, CPeerMsg.AppendEntries s.curr_term prev_slot prev_term []
        s.last_commit s.last_snap))
  let s1 : CRaftState := { s with heartbeater := s.heartbeater.update_bcast_cnts }
  let s2 := s1.heard_heartbeat s1.id s1.curr_term
  let s3 :=
    if !s2.full_copy_mode &&
        decide (s2.config.fault_tolerance ≤
          s2.population - s2.heartbeater.peer_alive_count) then
      s2.switch_assignment_mode true
    else
      s2
  (s3, msgs)

/-- Embedding of `become_the_leader` (leadership.rs lines 212-246): convert to Leader,
clear reply counters, broadcast an immediate heartbeat, re-initialize the
per-peer replication progress, and mark the entries after `last_commit` as
external.  The `CtrlMsg::LeaderStatus` control message is not recorded. -/
def become_the_leader (s : CRaftState) : CRaftState × List (Nat × CPeerMsg) :=
  let s1 : CRaftState :=
    { s with role := Role.Leader,
             heartbeater := (s.heartbeater.set_sending true).clear_reply_cnts }
  let r := s1.bcast_heartbeats
  let s2 := r.1
  let nslot : Nat → Nat := fun _ => s2.start_slot + s2.log.length
  let s3 : CRaftState :=
    { s2 with next_slot := nslot, try_next_slot := nslot,
              match_slot := fun _ => 0,
              log := s2.log.mapIdx (fun i e =>
                if s2.last_commit + 1 - s2.start_slot ≤ i then
                  { e with external := true }
                else e) }
  (s3, r.2)

end CRaftState

/-- One handler invocation of the CRaft replica as driven by its event loop:
term checks on peer messages, candidacy on election timeout, stepping up on a
vote majority, the periodic heartbeat broadcast, and hearing a heartbeat.
`switch_assignment_mode` is invoked only with `to_full_copy = true` in the
source (from `bcast_heartbeats`); an operator-initiated switch-back does not
exist in the codebase, so that call shape is the one included. -/
inductive CRaftStep : CRaftState → CRaftState → Prop where
  | check_term (s : CRaftState) (peer term : Nat) :
      CRaftStep s (s.check_term peer term).1
  | become_a_candidate (s : CRaftState) (timeout_source : Nat) :
      CRaftStep s (s.become_a_candidate timeout_source).1
  | become_the_leader (s : CRaftState) :
      CRaftStep s s.become_the_leader.1
  | bcast_heartbeats (s : CRaftState) :
      CRaftStep s s.bcast_heartbeats.1
  | heard_heartbeat (s : CRaftState) (peer term : Nat) :
      CRaftStep s (s.heard_heartbeat peer term)
  | switch_full_copy (s : CRaftState) :
      CRaftStep s (s.switch_assignment_mode true)

/-- A concrete CRaft replica state used to instantiate the CRaft theorems: a
Candidate at term 5 in a three-replica cluster, still in 1-shard mode. -/
def exCandidate : CRaftState :=
  { id := 0, population := 3, curr_term := 5, voted_for := some 0,
    votes_granted := [0], role := Role.Candidate, leader := none,
    log := [dummyEntry], start_slot := 0, last_commit := 0, last_snap := 0,
    next_slot := fun _ => 1, try_next_slot := fun _ => 1,
    match_slot := fun _ => 0, full_copy_mode := false,
    heartbeater := { population := 3, id := 0, sending := false,
                     reply_cnts := fun _ => 0, max_cnts := fun _ => 0,
                     repetitions := fun _ => 0, alive := fun _ => true,
                     hear_rounds := 1 },
    config := { logger_sync := true, disable_hb_timer := false,
                disallow_step_up := false, fault_tolerance := 1 } }

/-- A copy of the Candidate state already in full-copy mode. -/
def exFullCopy : CRaftState := { exCandidate with full_copy_mode := true }

/-- A variant of the Candidate state with a two-entry log, used to exercise
the external-marking of uncommitted entries. -/
def exLeaderLog : CRaftState :=
  { exCandidate with log := [dummyEntry, ⟨5, false, 8⟩] }

/-! MultiPaxos client-request entrance (src/protocols/multipaxos/request.rs)
and lease checks (src/protocols/multipaxos/leaderlease.rs). -/

/-- Key-value commands (Get / Put). -/
inductive Command where
  | Get (key : String)
  | Put (key : String) (value : String)
deriving DecidableEq, Repr

/-- Results of key-value commands. -/
inductive CommandResult where
  | GetResult (value : Option String)
  | PutResult (old_value : Option String)
deriving DecidableEq, Repr

/-- Client wire requests: `Req{id, cmd}` and `Leave{permanent}`. -/
inductive ApiRequest where
  | Req (id : Nat) (cmd : Command)
  | Leave (permanent : Bool)
deriving DecidableEq, Repr

/-- Client wire replies: `Reply{id, result?, redirect?}` and `LeaveAck`. -/
inductive ApiReply where
  | Reply (id : Nat) (result : Option CommandResult) (redirect : Option Nat)
  | LeaveAck
deriving DecidableEq, Repr

/-- Modelled from the spec: `ApiReply::normal(id, result)` (not under src/)
builds a `Reply` carrying the result and no redirection. -/
def ApiReply.normal (id : Nat) (result : Option CommandResult) : ApiReply :=
  ApiReply.Reply id result none

/-- MultiPaxos per-slot instance status. -/
inductive Status where
  | Null
  | Preparing
  | Accepting
  | Committed
  | Executed
deriving DecidableEq, Repr

/-- Leader-side bookkeeping of an instance. -/
structure LeaderBookkeeping where
  trigger_slot : Nat
  endprep_slot : Nat
  prepare_acks : Bitmap
  prepare_max_bal : Nat
  accept_acks : Bitmap
deriving DecidableEq, Repr

/-- A MultiPaxos instance; follower-side bookkeeping (replica_bk) is not
touched by the request path and is modelled opaquely. -/
structure Instance where
  status : Status
  bal : Nat
  reqs : List (Nat × ApiRequest)
  voted : Nat × List (Nat × ApiRequest)
  leader_bk : Option LeaderBookkeeping
  replica_bk : Option Unit
  external : Bool
deriving DecidableEq, Repr

/-- A fresh null instance (the one `first_null_slot` appends). -/
def nullInstance : Instance :=
  { status := Status.Null, bal := 0, reqs := [], voted := (0, []),
    leader_bk := none, replica_bk := none, external := false }

/-- The MultiPaxos replica configuration fields read by the request path. -/
structure MPConfig where
  sim_read_lease : Bool
  enable_leader_leases : Bool
  logger_sync : Bool
deriving DecidableEq, Repr

/-- The MultiPaxosReplica fields read or written by the request path and the
lease checks.  `is_leader` mirrors the `is_leader()` accessor and `lease_cnt`
mirrors `lease_manager.lease_cnt()`; both accessors live outside src/ and are
modelled as the underlying values.  `kv` is the deterministic key-value state
machine content behind `state_machine.do_sync_cmd`. -/
structure MPState where
  id : Nat
  population : Nat
  quorum_cnt : Nat
  is_leader : Bool
  leader : Option Nat
  bal_prepared : Nat
  bal_max_seen : Nat
  commit_bar : Nat
  peer_accept_max : Nat
  lease_cnt : Nat
  start_slot : Nat
  insts : List Instance
  kv : String → Option String
  config : MPConfig

/-- Asynchronous effects issued on the accept path of `handle_req_batch`: the
durable `AcceptData` append and the broadcast of `Accept` messages. -/
inductive MPEffect where
  | LogAccept (slot ballot : Nat) (reqs : List (Nat × ApiRequest))
  | BcastAccept (slot ballot : Nat) (reqs : List (Nat × ApiRequest))
deriving DecidableEq, Repr

namespace MPState

/-- The guard of the leader-lease read fast path in `handle_req_batch`
(request.rs lines 50-56), including the benchmarking-only simulation flag. -/
def read_fast_path (s : MPState) : Bool :=
  (s.is_leader && s.bal_max_seen == s.bal_prepared &&
   decide (0 < s.bal_prepared) && decide (s.quorum_cnt ≤ s.lease_cnt + 1)) ||
  s.config.sim_read_lease

/-- Embedding of `is_stable_leader` (leaderlease.rs lines 11-20). -/
def is_stable_leader (s : MPState) : Bool :=
  s.is_leader && decide (0 < s.bal_prepared) &&
    ((s.config.enable_leader_leases && s.bal_max_seen == s.bal_prepared &&
      decide (s.quorum_cnt ≤ s.lease_cnt) &&
      decide (s.peer_accept_max ≤ s.commit_bar)) ||
     s.config.sim_read_lease)

/-- Modelled from the spec: `first_null_slot` (not under src/; design note in
spec section 9) scans linearly for the first `Null` instance and appends a
fresh one at the end if none exists.  Returns the slot and the (possibly
extended) instance list. -/
def first_null_slot (s : MPState) : Nat × List Instance :=
  match s.insts.findIdx? (fun inst => inst.status == Status.Null) with
  | some i => (s.start_slot + i, s.insts)
  | none => (s.start_slot + s.insts.length, s.insts ++ [nullInstance])

/-- Embedding of `handle_req_batch` (request.rs lines 11-161).  Returns the new state, the
replies sent to clients, and the accept-path effects.  The model assumes no
in-flight async command results to drain inside `do_sync_cmd` (their handler
is outside this module) and skips the perf-breakdown stopwatch.  `Bitmap::new
(population, false)` panics on population 0; the model uses the empty bitmap
as that branch's placeholder. -/
def handle_req_batch (s : MPState) (req_batch : List (Nat × ApiRequest)) :
    MPState × List (Nat × ApiReply) × List MPEffect :=
  if !s.is_leader || s.bal_prepared == 0 then
    let replies := req_batch.filterMap (fun cr =>
      match cr with
      | (client, ApiRequest.Req req_id _) =>
        let target :=
          match s.leader with
          | some peer => peer
          | none => (s.id + 1) % s.population
        some (client, ApiReply.Reply req_id none (some target))
      | _ => none)
    (s, replies, [])
  else
    let read_replies :=
      if s.read_fast_path then
        req_batch.filterMap (fun cr =>
          match cr with
          | (client, ApiRequest.Req req_id (Command.Get key)) =>
            some (client,
              ApiReply.Reply req_id (some (CommandResult.GetResult (s.kv key)))
                none)
          | _ => none)
      else []
    let batch1 :=
      if s.read_fast_path then
        req_batch.filter (fun cr =>
          match cr with
          | (_, ApiRequest.Req _ (Command.Get _)) => false
          | _ => true)
      else req_batch
    if s.read_fast_path && batch1.isEmpty then
      (s, read_replies, [])
    else
      let r := s.first_null_slot
      let slot := r.1
      let idx := slot - s.start_slot
      let inst0 := r.2.getD idx nullInstance
      let inst1 : Instance :=
        { inst0 with
          reqs := batch1,
          leader_bk := some { trigger_slot := 0, endprep_slot := 0,
                              prepare_acks := (Bitmap.new s.population false).getD ⟨[]⟩,
                              prepare_max_bal := 0,
                              accept_acks := (Bitmap.new s.population false).getD ⟨[]⟩ },
          external := true,
          bal := s.bal_prepared,
          status := Status.Accepting,
          voted := (s.bal_prepared, batch1) }
      ({ s with insts := r.2.set idx inst1 },
       read_replies,
       [MPEffect.LogAccept slot inst1.bal batch1,
        MPEffect.BcastAccept slot inst1.bal batch1])

end MPState

/-! Raft command-execution handler (src/protocols/raft/execution.rs). -/

/-- A Raft log entry (the request list carries (client, request) pairs). -/
structure RaftLogEntry where
  term : Nat
  reqs : List (Nat × ApiRequest)
  external : Bool
  log_offset : Nat
deriving DecidableEq, Repr

/-- The RaftReplica fields read or written by `handle_cmd_result`;
`has_client` mirrors `external_api.has_client`. -/
structure RaftState where
  start_slot : Nat
  log : List RaftLogEntry
  last_exec : Nat
  has_client : Nat → Bool

/-- Default Raft log entry used for out-of-bounds indexing in the model; the
source debug-asserts that the indexes are in bounds. -/
def dummyRaftEntry : RaftLogEntry := ⟨0, [], false, 0⟩

namespace RaftState

/-- Embedding of `handle_cmd_result` (execution.rs lines 11-52), taking the (slot, cmd_idx)
pair that `split_command_id` (not under src/) decodes from the CommandId.
Returns the new state together with the optional reply sent to the issuing
client, or the logged error for a non-`Req` request. -/
def handle_cmd_result (s : RaftState) (slot cmd_idx : Nat)
    (cmd_result : CommandResult) :
    Except SummersetError (RaftState × Option (Nat × ApiReply)) :=
  if slot < s.start_slot then
    Except.ok (s, none)
  else
    let entry := s.log.getD (slot - s.start_slot) dummyRaftEntry
    match entry.reqs.getD cmd_idx (0, ApiRequest.Leave false) with
    | (client, ApiRequest.Req req_id _) =>
      let reply :=
        if entry.external && s.has_client client then
          some (client, ApiReply.normal req_id (some cmd_result))
        else
          none
      let s1 :=
        if cmd_idx == entry.reqs.length - 1 then { s with last_exec := slot }
        else s
      Except.ok (s1, reply)
    | _ => Except.error (SummersetError.msg ("unexpected API request type"))

end RaftState

/-- A concrete prepared-leader MultiPaxos state: five replicas, quorum 3,
leases granted by 2 peers, leader leases enabled, simulation flag off. -/
def exMPLeader : MPState :=
  { id := 0, population := 5, quorum_cnt := 3, is_leader := true,
    leader := some 0, bal_prepared := 1, bal_max_seen := 1, commit_bar := 4,
    peer_accept_max := 4, lease_cnt := 2, start_slot := 0, insts := [],
    kv := fun _ => none,
    config := { sim_read_lease := false, enable_leader_leases := true,
                logger_sync := true } }

/-- A concrete non-leader MultiPaxos state with no known leader. -/
def exMPFollower : MPState :=
  { id := 0, population := 3, quorum_cnt := 2, is_leader := false,
    leader := none, bal_prepared := 0, bal_max_seen := 1, commit_bar := 0,
    peer_accept_max := 0, lease_cnt := 0, start_slot := 0,
    insts := [nullInstance], kv := fun _ => none,
    config := { sim_read_lease := false, enable_leader_leases := true,
                logger_sync := true } }

/-- A concrete Raft state with one external entry holding one request. -/
def exRaft : RaftState :=
  { start_slot := 0,
    log := [{ term := 1, reqs := [(7, ApiRequest.Req 3 (Command.Get ("k")))],
              external := true, log_offset := 0 }],
    last_exec := 0, has_client := fun _ => true }

/-- C1 counterexample: a Candidate at term 5 that receives a peer message
carrying the equal term 5 stays Candidate and `check_term` returns false (the
equal-term disjunct is commented out in the source), contradicting the claim
that it converts to Follower and returns true. -/
theorem check_term_equal_term_counterexample :
    exCandidate.role = Role.Candidate ∧
    exCandidate.curr_term = 5 ∧
    (exCandidate.check_term 1 5).1.role = Role.Candidate ∧
    (exCandidate.check_term 1 5).2.1 = false :=
  ⟨rfl, rfl, rfl, rfl⟩

/-- C1 (amended): for a message term not larger than `curr_term` — in
particular an equal term at a Candidate — `check_term` changes nothing,
persists nothing and returns false; only `term > curr_term` steps down. -/
theorem check_term_equal_term_no_stepdown (s : CRaftState) (peer term : Nat)
    (h : term ≤ s.curr_term) :
    s.check_term peer term = (s, false, []) := by
  simp [CRaftState.check_term, Nat.not_lt.mpr h]

/-- Witness for the amended C1 at the Candidate state and an equal term. -/
theorem check_term_equal_term_no_stepdown_witness :
    5 ≤ exCandidate.curr_term ∧
    exCandidate.check_term 1 5 = (exCandidate, false, []) :=
  ⟨by decide, check_term_equal_term_no_stepdown exCandidate 1 5 (by decide)⟩

/-- C2: on observing `term > curr_term`, `check_term` adopts the new term,
clears `voted_for` and `votes_granted`, records the sender as leader,
synchronously issues the (curr_term, voted_for) metadata write at offset 0,
leaves the replica a Follower, and returns true iff the role before the call
was not Follower. -/
theorem check_term_higher_term (s : CRaftState) (peer term : Nat)
    (h : s.curr_term < term) :
    (s.check_term peer term).1.curr_term = term ∧
    (s.check_term peer term).1.voted_for = none ∧
    (s.check_term peer term).1.votes_granted = [] ∧
    (s.check_term peer term).1.leader = some peer ∧
    (s.check_term peer term).1.role = Role.Follower ∧
    (s.check_term peer term).2.2 = [⟨term, none, 0, s.config.logger_sync⟩] ∧
    ((s.check_term peer term).2.1 = true ↔ s.role ≠ Role.Follower) := by
  by_cases hr : s.role = Role.Follower <;>
    by_cases hp : peer = s.id <;>
      simp [CRaftState.check_term, CRaftState.heard_heartbeat, h, hr, hp]

/-- Witness for C2: the Candidate at term 5 observes term 6. -/
theorem check_term_higher_term_witness :
    exCandidate.curr_term < 6 ∧
    ((exCandidate.check_term 1 6).1.curr_term = 6 ∧
     (exCandidate.check_term 1 6).1.voted_for = none ∧
     (exCandidate.check_term 1 6).1.votes_granted = [] ∧
     (exCandidate.check_term 1 6).1.leader = some 1 ∧
     (exCandidate.check_term 1 6).1.role = Role.Follower ∧
     (exCandidate.check_term 1 6).2.2 =
       [⟨6, none, 0, exCandidate.config.logger_sync⟩] ∧
     ((exCandidate.check_term 1 6).2.1 = true ↔
       exCandidate.role ≠ Role.Follower)) :=
  ⟨by decide, check_term_higher_term exCandidate 1 6 (by decide)⟩

theorem heard_heartbeat_full_copy (s : CRaftState) (p t : Nat) :
    (s.heard_heartbeat p t).full_copy_mode = s.full_copy_mode := by
  unfold CRaftState.heard_heartbeat
  split <;> rfl

theorem check_term_full_copy (s : CRaftState) (p t : Nat) :
    (s.check_term p t).1.full_copy_mode = s.full_copy_mode := by
  by_cases hr : s.role = Role.Follower <;>
    by_cases hp : p = s.id <;>
      simp [CRaftState.check_term, CRaftState.heard_heartbeat, hr, hp] <;>
        split <;> rfl

theorem become_a_candidate_full_copy (s : CRaftState) (t : Nat) :
    (s.become_a_candidate t).1.full_copy_mode = s.full_copy_mode := by
  unfold CRaftState.become_a_candidate
  split
  · rfl
  · simp [heard_heartbeat_full_copy]

theorem switch_to_full_copy_stable (s : CRaftState)
    (hf : s.full_copy_mode = true) :
    (s.switch_assignment_mode true).full_copy_mode = true := by
  simp [CRaftState.switch_assignment_mode, hf]

theorem bcast_heartbeats_full_copy_stable (s : CRaftState)
    (hf : s.full_copy_mode = true) :
    s.bcast_heartbeats.1.full_copy_mode = true := by
  simp [CRaftState.bcast_heartbeats, CRaftState.heard_heartbeat, hf]

theorem become_the_leader_full_copy_stable (s : CRaftState)
    (hf : s.full_copy_mode = true) :
    s.become_the_leader.1.full_copy_mode = true := by
  simp only [CRaftState.become_the_leader]
  exact bcast_heartbeats_full_copy_stable _ hf

/-- C4: once `full_copy_mode` is true, no handler invocation of the CRaft
replica ever sets it back to false — switch-back to shard mode never happens
automatically. -/
theorem full_copy_mode_stable (s s' : CRaftState)
    (hf : s.full_copy_mode = true) (hstep : CRaftStep s s') :
    s'.full_copy_mode = true := by
  cases hstep with
  | check_term peer term => rw [check_term_full_copy]; exact hf
  | become_a_candidate t => rw [become_a_candidate_full_copy]; exact hf
  | become_the_leader => exact become_the_leader_full_copy_stable s hf
  | bcast_heartbeats => exact bcast_heartbeats_full_copy_stable s hf
  | heard_heartbeat peer term => rw [heard_heartbeat_full_copy]; exact hf
  | switch_full_copy => exact switch_to_full_copy_stable s hf

/-- Witness for C4: a heartbeat-hearing step from a full-copy-mode state. -/
theorem full_copy_mode_stable_witness :
    exFullCopy.full_copy_mode = true ∧
    (exFullCopy.heard_heartbeat 1 5).full_copy_mode = true :=
  ⟨rfl, full_copy_mode_stable exFullCopy (exFullCopy.heard_heartbeat 1 5) rfl
    (CRaftStep.heard_heartbeat exFullCopy 1 5)⟩

/-- C5: a leader in shard mode switches to full-copy mode during
`bcast_heartbeats` exactly when, after updating the heartbeat broadcast
counters, the number of suspected-dead replicas
(`population - peer_alive().count()`) reaches `fault_tolerance`. -/
theorem bcast_heartbeats_fallback (s : CRaftState)
    (h : s.full_copy_mode = false) :
    (s.bcast_heartbeats.1.full_copy_mode = true ↔
      s.config.fault_tolerance ≤
        s.population - s.heartbeater.update_bcast_cnts.peer_alive_count) := by
  by_cases hc : s.config.fault_tolerance ≤
      s.population - s.heartbeater.update_bcast_cnts.peer_alive_count <;>
    simp [CRaftState.bcast_heartbeats, CRaftState.heard_heartbeat,
      CRaftState.switch_assignment_mode, h, hc]

/-- Witness for C5 at the concrete shard-mode state. -/
theorem bcast_heartbeats_fallback_witness :
    exCandidate.full_copy_mode = false ∧
    (exCandidate.bcast_heartbeats.1.full_copy_mode = true ↔
      exCandidate.config.fault_tolerance ≤
        exCandidate.population -
          exCandidate.heartbeater.update_bcast_cnts.peer_alive_count) :=
  ⟨rfl, bcast_heartbeats_fallback exCandidate rfl⟩

theorem switch_assignment_mode_log (s : CRaftState) (b : Bool) :
    (s.switch_assignment_mode b).log = s.log ∧
    (s.switch_assignment_mode b).start_slot = s.start_slot ∧
    (s.switch_assignment_mode b).last_commit = s.last_commit := by
  unfold CRaftState.switch_assignment_mode
  split <;> exact ⟨rfl, rfl, rfl⟩

theorem bcast_heartbeats_log_unchanged (s : CRaftState) :
    s.bcast_heartbeats.1.log = s.log ∧
    s.bcast_heartbeats.1.start_slot = s.start_slot ∧
    s.bcast_heartbeats.1.last_commit = s.last_commit := by
  simp only [CRaftState.bcast_heartbeats, CRaftState.heard_heartbeat]
  split <;> split <;> simp [switch_assignment_mode_log]

/-- C6: after `become_the_leader`, every peer's `next_slot` and
`try_next_slot` equal `start_slot + len(log)`, every `match_slot` is 0, and
every log entry at a slot strictly greater than `last_commit` is external. -/
theorem become_the_leader_resets (s : CRaftState) (p i : Nat)
    (hi : i < s.log.length) (hslot : s.last_commit < s.start_slot + i) :
    s.become_the_leader.1.next_slot p = s.start_slot + s.log.length ∧
    s.become_the_leader.1.try_next_slot p = s.start_slot + s.log.length ∧
    s.become_the_leader.1.match_slot p = 0 ∧
    (s.become_the_leader.1.log.getD i dummyEntry).external = true := by
  obtain ⟨hlog, hstart, hcommit⟩ := bcast_heartbeats_log_unchanged
    { s with role := Role.Leader,
             heartbeater := (s.heartbeater.set_sending true).clear_reply_cnts }
  simp only [CRaftState.become_the_leader]
  refine ⟨?_, ?_, ?_, ?_⟩
  · simp only [hlog, hstart]
  · simp only [hlog, hstart]
  · trivial
  · have hcond : s.last_commit + 1 - s.start_slot ≤ i := by omega
    simp only [hlog, hstart, hcommit, List.getD_eq_getElem?_getD,
      List.getElem?_mapIdx, List.getElem?_eq_getElem hi, if_pos hcond]
    simp

/-- Witness for C6 at the concrete Candidate state (log of length 1, slot 0
strictly greater than a last_commit that we set below it is impossible there,
so a two-entry log is used). -/
theorem become_the_leader_resets_witness :
    (1 < exLeaderLog.log.length ∧
      exLeaderLog.last_commit < exLeaderLog.start_slot + 1) ∧
    (exLeaderLog.become_the_leader.1.next_slot 2 =
        exLeaderLog.start_slot + exLeaderLog.log.length ∧
      exLeaderLog.become_the_leader.1.try_next_slot 2 =
        exLeaderLog.start_slot + exLeaderLog.log.length ∧
      exLeaderLog.become_the_leader.1.match_slot 2 = 0 ∧
      (exLeaderLog.become_the_leader.1.log.getD 1 dummyEntry).external = true) :=
  ⟨⟨by decide, by decide⟩,
    become_the_leader_resets exLeaderLog 2 1 (by decide) (by decide)⟩

/-- C3: for a prepared leader (is_leader, bal_max_seen = bal_prepared,
bal_prepared > 0) with the simulation flag off, the request-batch read fast
path is taken exactly when lease_cnt() + 1 >= quorum_cnt, while
is_stable_leader requires lease_cnt() >= quorum_cnt (and, under its remaining
conditions — leases enabled and commit_bar >= peer_accept_max — holds exactly
then): the two lease checks differ precisely by counting the leader itself. -/
theorem read_fast_path_vs_stable_leader (s : MPState)
    (hl : s.is_leader = true) (hb : s.bal_max_seen = s.bal_prepared)
    (hp : 0 < s.bal_prepared) (hsim : s.config.sim_read_lease = false) :
    (s.read_fast_path = true ↔ s.quorum_cnt ≤ s.lease_cnt + 1) ∧
    (s.is_stable_leader = true → s.quorum_cnt ≤ s.lease_cnt) ∧
    (s.config.enable_leader_leases = true → s.peer_accept_max ≤ s.commit_bar →
      (s.is_stable_leader = true ↔ s.quorum_cnt ≤ s.lease_cnt)) := by
  refine ⟨?_, ?_, ?_⟩
  · simp [MPState.read_fast_path, hl, hb, hp, hsim]
  · intro hst
    simp [MPState.is_stable_leader, hl, hb, hp, hsim] at hst
    tauto
  · intro hll hcb
    simp [MPState.is_stable_leader, hl, hb, hp, hsim, hll, hcb]

/-- Witness for C3 at the concrete prepared-leader state. -/
theorem read_fast_path_vs_stable_leader_witness :
    (exMPLeader.is_leader = true ∧
      exMPLeader.bal_max_seen = exMPLeader.bal_prepared ∧
      0 < exMPLeader.bal_prepared ∧
      exMPLeader.config.sim_read_lease = false) ∧
    ((exMPLeader.read_fast_path = true ↔
        exMPLeader.quorum_cnt ≤ exMPLeader.lease_cnt + 1) ∧
      (exMPLeader.is_stable_leader = true →
        exMPLeader.quorum_cnt ≤ exMPLeader.lease_cnt) ∧
      (exMPLeader.config.enable_leader_leases = true →
        exMPLeader.peer_accept_max ≤ exMPLeader.commit_bar →
        (exMPLeader.is_stable_leader = true ↔
          exMPLeader.quorum_cnt ≤ exMPLeader.lease_cnt))) :=
  ⟨⟨rfl, rfl, by decide, rfl⟩,
    read_fast_path_vs_stable_leader exMPLeader rfl rfl (by decide) rfl⟩

/-- C7: a replica that is not a prepared leader answers every Req in an
incoming batch with a Reply carrying result = None and redirect = Some(the
known leader, or (id + 1) mod population when none is known), and neither
creates nor mutates any log instance (the state is returned unchanged and no
accept-path effects are issued). -/
theorem handle_req_batch_redirect (s : MPState)
    (batch : List (Nat × ApiRequest))
    (h : s.is_leader = false ∨ s.bal_prepared = 0) :
    s.handle_req_batch batch =
      (s,
       batch.filterMap (fun cr =>
         match cr with
         | (client, ApiRequest.Req req_id _) =>
           some (client, ApiReply.Reply req_id none
             (some (match s.leader with
                    | some peer => peer
                    | none => (s.id + 1) % s.population)))
         | _ => none),
       []) ∧
    ∀ client req_id cmd, (client, ApiRequest.Req req_id cmd) ∈ batch →
      (client, ApiReply.Reply req_id none
        (some (match s.leader with
               | some peer => peer
               | none => (s.id + 1) % s.population))) ∈
        (s.handle_req_batch batch).2.1 := by
  have hguard : (!s.is_leader || s.bal_prepared == 0) = true := by
    rcases h with h | h <;> simp [h]
  have heq : s.handle_req_batch batch =
      (s,
       batch.filterMap (fun cr =>
         match cr with
         | (client, ApiRequest.Req req_id _) =>
           some (client, ApiReply.Reply req_id none
             (some (match s.leader with
                    | some peer => peer
                    | none => (s.id + 1) % s.population)))
         | _ => none),
       []) := by
    simp only [MPState.handle_req_batch, hguard, if_true]
  refine ⟨heq, ?_⟩
  intro client req_id cmd hmem
  rw [heq]
  exact List.mem_filterMap.mpr ⟨(client, ApiRequest.Req req_id cmd), hmem, rfl⟩

/-- Witness for C7: a single-request batch at the concrete non-leader state is
redirected to replica (0 + 1) mod 3 = 1 and the state is unchanged. -/
theorem handle_req_batch_redirect_witness :
    (exMPFollower.is_leader = false ∨ exMPFollower.bal_prepared = 0) ∧
    exMPFollower.handle_req_batch [(7, ApiRequest.Req 1 (Command.Get ("k")))] =
      (exMPFollower, [(7, ApiReply.Reply 1 none (some 1))], []) :=
  ⟨Or.inl rfl,
    (handle_req_batch_redirect exMPFollower
      [(7, ApiRequest.Req 1 (Command.Get ("k")))] (Or.inl rfl)).1⟩

/-- C8: for a command result at slot >= start_slot whose addressed request is
a client Req, `handle_cmd_result` sends a reply exactly when the entry is
external and the client is still connected (and that reply carries the
result); a result for a slot below start_slot leaves the state unchanged and
sends nothing. -/
theorem handle_cmd_result_reply_iff (s : RaftState) (slot cmd_idx : Nat)
    (res : CommandResult) (client req_id : Nat) (cmd : Command)
    (hreq : (s.log.getD (slot - s.start_slot) dummyRaftEntry).reqs.getD cmd_idx
        (0, ApiRequest.Leave false) = (client, ApiRequest.Req req_id cmd)) :
    (slot < s.start_slot →
      s.handle_cmd_result slot cmd_idx res = Except.ok (s, none)) ∧
    (s.start_slot ≤ slot →
      ((∃ s' rep, s.handle_cmd_result slot cmd_idx res =
          Except.ok (s', some rep)) ↔
        ((s.log.getD (slot - s.start_slot) dummyRaftEntry).external = true ∧
          s.has_client client = true)) ∧
      ((s.log.getD (slot - s.start_slot) dummyRaftEntry).external = true →
        s.has_client client = true →
        ∃ s', s.handle_cmd_result slot cmd_idx res =
          Except.ok (s', some (client, ApiReply.normal req_id (some res))))) := by
  simp only [List.getD_eq_getElem?_getD] at hreq ⊢
  constructor
  · intro hlt
    simp [RaftState.handle_cmd_result, hlt]
  · intro hge
    have hnlt : ¬ slot < s.start_slot := Nat.not_lt.mpr hge
    constructor
    · constructor
      · rintro ⟨s', rep, hok⟩
        by_cases hx :
            ((s.log[slot - s.start_slot]?).getD dummyRaftEntry).external = true
        · by_cases hc : s.has_client client = true
          · exact ⟨hx, hc⟩
          · simp [RaftState.handle_cmd_result, hnlt, hreq, hx, hc] at hok
        · simp [RaftState.handle_cmd_result, hnlt, hreq, hx] at hok
      · rintro ⟨hx, hc⟩
        refine ⟨if cmd_idx ==
            ((s.log[slot - s.start_slot]?).getD dummyRaftEntry).reqs.length - 1
          then { s with last_exec := slot } else s,
          (client, ApiReply.normal req_id (some res)), ?_⟩
        simp [RaftState.handle_cmd_result, hnlt, hreq, hx, hc]
    · intro hx hc
      refine ⟨if cmd_idx ==
          ((s.log[slot - s.start_slot]?).getD dummyRaftEntry).reqs.length - 1
        then { s with last_exec := slot } else s, ?_⟩
      simp [RaftState.handle_cmd_result, hnlt, hreq, hx, hc]

/-- Witness for C8 at the concrete Raft state: the single request of slot 0 is
external and its client is connected, so the result is replied. -/
theorem handle_cmd_result_reply_iff_witness :
    ((exRaft.log.getD 0 dummyRaftEntry).reqs.getD 0 (0, ApiRequest.Leave false) =
      (7, ApiRequest.Req 3 (Command.Get ("k")))) ∧
    (exRaft.start_slot ≤ 0 ∧
      ∃ s', exRaft.handle_cmd_result 0 0 (CommandResult.GetResult none) =
        Except.ok (s',
          some (7, ApiReply.normal 3 (some (CommandResult.GetResult none))))) :=
  ⟨rfl, Nat.le_refl 0,
    ((handle_cmd_result_reply_iff exRaft 0 0 (CommandResult.GetResult none) 7 3
        (Command.Get ("k")) rfl).2 (Nat.le_refl 0)).2 rfl rfl⟩

/-- C9: `Bitmap::new(size, ones)` with `size = 0` is rejected for every `ones`
flag (no bitmap is constructed: the zero-size branch panics), and for every
`size > 0` it returns a bitmap of exactly that size. -/
theorem bitmap_new_zero_rejected (ones : Bool) (size : Nat) (h : 0 < size) :
    (∀ o : Bool, Bitmap.new 0 o = none) ∧
    ∃ b : Bitmap, Bitmap.new size ones = some b ∧ b.size = size := by
  refine ⟨fun o => rfl, ⟨List.replicate size ones⟩, ?_, ?_⟩
  · simp [Bitmap.new, Nat.pos_iff_ne_zero.mp h]
  · simp [Bitmap.size]

/-- Witness for C9 at size 3. -/
theorem bitmap_new_zero_rejected_witness :
    0 < 3 ∧
      ((∀ o : Bool, Bitmap.new 0 o = none) ∧
        ∃ b : Bitmap, Bitmap.new 3 true = some b ∧ b.size = 3) :=
  ⟨by decide, bitmap_new_zero_rejected true 3 (by decide)⟩

/-- C10: `Bitmap::set(idx, f)` succeeds iff `idx` is in bounds; on error the
bitmap is unchanged and `get idx` also errors; on success `get idx` yields
`Ok f` and every other in-bounds index is unchanged. -/
theorem bitmap_set_get_spec (b : Bitmap) (idx : Nat) (f : Bool) :
    ((b.set idx f).2 = Except.ok () ↔ idx < b.size) ∧
    (b.size ≤ idx →
      (b.set idx f).1 = b ∧
      (∃ e, (b.set idx f).2 = Except.error e) ∧
      ∃ e, b.get idx = Except.error e) ∧
    (idx < b.size →
      (b.set idx f).1.get idx = Except.ok f ∧
      ∀ j, j ≠ idx → (b.set idx f).1.get j = b.get j) := by
  refine ⟨?_, ?_, ?_⟩
  · by_cases hge : b.size ≤ idx
    · simp only [Bitmap.set, if_pos hge]
      constructor
      · intro hok
        exact absurd hok (by simp)
      · intro hlt
        omega
    · simp only [Bitmap.set, if_neg hge]
      simp
      omega
  · intro hge
    refine ⟨by simp [Bitmap.set, hge],
      ⟨SummersetError.msg ("index " ++ toString idx ++ " out of bound"),
        by simp [Bitmap.set, hge]⟩,
      ⟨SummersetError.msg ("index " ++ toString idx ++ " out of bound"),
        by simp [Bitmap.get, hge]⟩⟩
  · intro hlt
    have hnle : ¬ b.size ≤ idx := Nat.not_le_of_lt hlt
    have hlen : idx < b.bits.length := hlt
    have hsz : (⟨b.bits.set idx f⟩ : Bitmap).size = b.size := by
      simp [Bitmap.size]
    constructor
    · simp only [Bitmap.set, if_neg hnle]
      simp only [Bitmap.get, hsz, if_neg hnle]
      have h1 : (b.bits.set idx f)[idx]? = some f := List.getElem?_set_self hlen
      simp [h1]
    · intro j hj
      simp only [Bitmap.set, if_neg hnle]
      simp only [Bitmap.get, hsz]
      by_cases hjge : b.size ≤ j
      · simp [hjge]
      · have h2 : (b.bits.set idx f)[j]? = b.bits[j]? :=
          List.getElem?_set_ne (Ne.symm hj)
        simp [hjge, h2]

/-- Witness for C10 on a concrete 3-bit bitmap at index 1, checked at the
neighbouring index 0 as well. -/
theorem bitmap_set_get_spec_witness :
    (((Bitmap.mk [false, false, false]).set 1 true).2 = Except.ok () ↔
      1 < (Bitmap.mk [false, false, false]).size) ∧
    (1 < (Bitmap.mk [false, false, false]).size ∧
      ((Bitmap.mk [false, false, false]).set 1 true).1.get 1 = Except.ok true ∧
      ((Bitmap.mk [false, false, false]).set 1 true).1.get 0 =
        (Bitmap.mk [false, false, false]).get 0) :=
  ⟨(bitmap_set_get_spec (Bitmap.mk [false, false, false]) 1 true).1,
    by decide,
    ((bitmap_set_get_spec (Bitmap.mk [false, false, false]) 1 true).2.2
      (by decide)).1,
    ((bitmap_set_get_spec (Bitmap.mk [false, false, false]) 1 true).2.2
      (by decide)).2 0 (by decide)⟩

end Summerset
